import Mathlib

/-!
Verification development for the robot mission planner repository.

Shallow embedding of the route-solving pipeline (src/app.py `PathSolver`,
src/src/gui2.py `TSPGUI`) and the cost-grid pipeline (src/src/replan.py:
`create_grid`, `fill_grid`, `points_near_ref`, `split_ways`).

Coordinates and integer costs are embedded as rationals and integers;
geometric lengths that the source obtains from `np.linalg.norm` are
embedded over the reals with `Real.sqrt`.
-/

namespace Planner

/-! ## Points (src/app.py, PathSolver.add_point) -/

/-- A point as stored in `PathSolver.points` (src/app.py lines 24-31):
a dict with keys id, lat, lng and type, where type is the role string
(start, goal or intermediate). -/
structure AppPoint where
  pid : ℕ
  lat : ℚ
  lng : ℚ
  ptype : String
deriving DecidableEq, Repr

/-- src/app.py line 57: the indices of the points whose type is start,
in order (the Python list comprehension over enumerate). -/
def start_points (points : List AppPoint) : List ℕ :=
  (points.enum.filter (fun ip => ip.2.ptype == "start")).map (fun ip => ip.1)

/-- src/app.py line 58: the indices of the points whose type is goal. -/
def goal_points (points : List AppPoint) : List ℕ :=
  (points.enum.filter (fun ip => ip.2.ptype == "goal")).map (fun ip => ip.1)

/-- src/app.py lines 54-65, the precondition phase of
`PathSolver.solve_path`.  The part of the body from the distance-matrix
computation onward (lines 67 and following) is abstracted as `rest`,
applied to the chosen start and goal indices (`start_points[0]`,
`goal_points[0]`); the function returns before ever consulting `rest`
when a precondition fails.  An `Except.error` models the Python
`return None, message`. -/
def solve_path (points : List AppPoint)
    (rest : ℕ → ℕ → Except String (List ℕ × ℤ)) :
    Except String (List ℕ × ℤ) :=
  if points.length < 2 then
    .error "Need at least 2 points"
  else
    match start_points points, goal_points points with
    | [], _ => .error "Need both start and goal points"
    | _ :: _, [] => .error "Need both start and goal points"
    | s :: _, g :: _ => rest s g

/-! ## Path extraction and cost accumulation (src/app.py lines 95-107)

The OR-Tools solution is external; the extraction loop walks it through
a successor function (`solution.Value(routing.NextVar(index))`) and an
end test (`routing.IsEnd`), both abstract here, with node indices
conflated with routing indices as in the single-vehicle model.  The
loop is:

    while not routing.IsEnd(index):
        path.append(node); previous_index = index
        index = solution.Value(routing.NextVar(index))
        if not routing.IsEnd(index):
            total_distance += routing.GetArcCostForVehicle(previous_index, index, 0)
    path.append(manager.IndexToNode(index))

`GetArcCostForVehicle` returns the registered distance-matrix entry.
A fuel argument bounds the walk (Python would loop forever on a cyclic
successor function; the claims only use terminating chains). -/
def extractLoop (D : ℕ → ℕ → ℤ) (next : ℕ → ℕ) (isEnd : ℕ → Bool) :
    ℕ → ℕ → List ℕ × ℤ
  | idx, 0 => ([idx], 0)
  | idx, fuel + 1 =>
    if isEnd idx then ([idx], 0)
    else
      let nxt := next idx
      let r := extractLoop D next isEnd nxt fuel
      (idx :: r.1, (if isEnd nxt then 0 else D idx nxt) + r.2)

/-- The cost of a path as the specification defines it: the sum of
distance-matrix entries over every consecutive pair of the path,
including the final edge into the goal. -/
def pathCost (D : ℕ → ℕ → ℤ) : List ℕ → ℤ
  | a :: b :: rest => D a b + pathCost D (b :: rest)
  | _ => 0

/-! ## gui2 routing (src/src/gui2.py, TSPGUI) -/

/-- A point as stored in `TSPGUI.points` (src/src/gui2.py line 26):
a tuple (x, y, point_id, type). -/
structure GuiPoint where
  x : ℚ
  y : ℚ
  pid : ℕ
  ptype : String
deriving DecidableEq, Repr

/-- src/src/gui2.py lines 80-91, the precondition phase of
`TSPGUI.solve_path`: fewer than 2 points, or fewer than 2 clicks
(start and goal are always the first two clicks), or identical start
and goal with no intermediate points, each pop a warning and return
without solving.  `some w` is the warning message shown (the method
returns with no path); `none` means the method proceeds to the
distance matrix and the solver. -/
def gui2_solve_front (points : List GuiPoint) (click_count : ℕ) :
    Option String :=
  if points.length < 2 then
    some "Please add at least 2 points."
  else if click_count < 2 then
    some "Please add both start and goal points."
  else
    match points.find? (fun p => p.ptype == "start"),
          points.find? (fun p => p.ptype == "goal") with
    | some sp, some gp =>
      if (sp.x, sp.y) = (gp.x, gp.y) ∧ points.length = 2 then
        some "Start and goal cannot be the same without intermediate points."
      else none
    | _, _ => none

/-- src/src/gui2.py lines 141-144, the post-solution check of
`TSPGUI.solve_path`:

    if len(set(path)) != len(self.points):
        messagebox.showwarning("Warning", "Solution does not include all points. ...")
        return

`len(set(path))` is the number of distinct ids in the path, embedded
as `path.dedup.length`.  On failure the method returns with a warning
and no path; otherwise the path is kept and drawn. -/
def gui2PostCheck (n : ℕ) (path : List ℕ) : Except String (List ℕ) :=
  if path.dedup.length ≠ n then
    .error "Solution does not include all points. Try adjusting points."
  else
    .ok path

/-! ## Grid construction (src/src/replan.py, create_grid, lines 12-33)

`create_grid` builds the two axes with

    xs = np.linspace(low[0], high[0], np.ceil((high[0]-low[0])/cell_size).astype(int))

and flattens `np.meshgrid(xs, ys)` row-major (y outermost, numpy xy
indexing), padding a third zero column onto every row. -/

/-- The numpy call `np.linspace a b num` over the rationals: `num`
evenly spaced samples from `a` to `b` inclusive, step `(b - a) / (num - 1)`. -/
def linspace (a b : ℚ) (num : ℕ) : List ℚ :=
  if num = 0 then []
  else if num = 1 then [a]
  else (List.range num).map (fun i => a + i * (b - a) / ((num : ℚ) - 1))

/-- The per-axis sample count of `create_grid`:
`np.ceil((high - low) / cell_size).astype(int)`. -/
def gridNum (low high cell_size : ℚ) : ℕ :=
  (⌈(high - low) / cell_size⌉).toNat

/-- src/src/replan.py lines 12-33, `create_grid`: the row-major lattice
over the bounding box, each row `(x, y, 0)` (the trailing zero column
comes from `np.pad(..., ((0,0),(0,1)))`). -/
def create_grid (low high : ℚ × ℚ) (cell_size : ℚ) : List (ℚ × ℚ × ℚ) :=
  let xs := linspace low.1 high.1 (gridNum low.1 high.1 cell_size)
  let ys := linspace low.2 high.2 (gridNum low.2 high.2 cell_size)
  ((ys.map (fun y => xs.map (fun x => (x, y, (0 : ℚ))))).flatten)

/-! ## Cost-map construction (src/src/replan.py, fill_grid, lines 35-67)

The source of `fill_grid` is partly broken: line 49 passes the
undefined name `points` to `split_ways`, and `points_near_ref` (line
92) uses `cKDTree`, which is never imported, so the reference point set
and the nearest-neighbor query cannot be produced by the source as it
stands.  The embedding therefore takes the per-cell nearest-reference
distance as a function argument `nearest` (the capability interface of
the kd-tree query) and the barrier containment tests
(`obstacle.line.contains(Point(...))`, an external shapely predicate)
as boolean functions.  Everything else follows the source lines. -/

/-- src/src/replan.py line 51: the neighbor-cost mode is the local
literal, not a configuration parameter. -/
def neighbor_cost : String := "quadratic"

/-- The per-cell cost that the block at src/src/replan.py lines 49-63
assigns.  `points_near_ref` stores `dists / max_dist` in the cost
column of `tmp` for the cells whose nearest distance is below
`max_path_dist` (the mask); then

    if   shape == 'linear':    pass
    elif shape == 'quadratic': tmp[:, 3] = path_grid[:, 3] ** 2
    elif shape == 'zero':      tmp[:, 3] = 0
    else:                      print(f'Unknown neighbor cost: ...')
    tmp[:, 3] /= max_path_dist ** 2 if shape == 'quadratic' else 1
    path_grid[mask] = tmp[:, 3]

`path_grid` is `np.zeros_like(grid)`, so the column the quadratic
branch squares is zero-filled (it is also index 3 of a 3-column array,
an out-of-range read in numpy); the `0 ^ 2` below is that zero column.
Unmasked cells keep the zero initialization of `path_grid`. -/
def cellCost (shape : String) (max_path_dist d : ℚ) : ℚ :=
  if d < max_path_dist then
    (if shape = "linear" then d / max_path_dist
     else if shape = "quadratic" then 0 ^ 2
     else if shape = "zero" then 0
     else d / max_path_dist) /
    (if shape = "quadratic" then max_path_dist ^ 2 else 1)
  else 0

/-- The diagnostic messages the shaping block prints: the final `else`
branch prints an Unknown-neighbor-cost message and falls through; no
exception is raised and no branch aborts the computation. -/
def fillWarnings (shape : String) : List String :=
  if shape = "linear" then []
  else if shape = "quadratic" then []
  else if shape = "zero" then []
  else ["Unknown neighbor cost: " ++ shape]

/-- src/src/replan.py lines 35-67, `fill_grid`.  Costs are `WithTop ℝ`
so that the obstacle sentinel `np.inf` is `⊤`.  In order:
obstacle marking over the barrier predicates (lines 41-45), per-cell
proximity costs (lines 49-63, via `cellCost`), and the merge
`grid = path_grid.copy(); grid[obstacle_grid] = np.inf` (lines 64-65).
(The source sets the whole obstacle row to infinity, coordinates
included; only the cost column is modelled.)  The first component
collects the printed diagnostics. -/
def fill_grid (shape : String) (max_path_dist : ℚ)
    (barriers : List ((ℚ × ℚ) → Bool)) (nearest : (ℚ × ℚ) → ℚ)
    (grid : List (ℚ × ℚ)) : List String × List (WithTop ℚ) :=
  let obstacle_grid := grid.map (fun c => barriers.any (fun b => b c))
  let path_grid := grid.map (fun c => cellCost shape max_path_dist (nearest c))
  (fillWarnings shape,
   List.zipWith (fun cost obst => if obst then (⊤ : WithTop ℚ) else (cost : WithTop ℚ))
     path_grid obstacle_grid)

/-- Modelled from the spec: the quadratic cost shaping as the
specification words it — the ratio `d / max_path_dist` is computed
first and then squared (spec section 4.4 step 3, which fixes this
contract explicitly against the broken reference code). -/
def spec_quadratic_cost (max_path_dist d : ℚ) : ℚ :=
  (d / max_path_dist) ^ 2

/-! ## Way resampling (src/src/replan.py, split_ways, lines 100-140) -/

/-- The segment length `np.linalg.norm(point1 - point0)`.  (The way
resampling is embedded over the reals because the source takes this
square root; these definitions are the only noncomputable ones.) -/
noncomputable def segDist (p0 p1 : ℝ × ℝ) : ℝ :=
  Real.sqrt ((p1.1 - p0.1) ^ 2 + (p1.2 - p0.2) ^ 2)

/-- The points one segment of a way contributes in `split_ways`
(src/src/replan.py lines 127-138), not counting the first-segment
start point:

    dist = np.linalg.norm(point1 - point0)
    if dist <= 1e-3: waypoints.append(point1); continue
    vec = (point1 - point0) / dist
    num = int(np.ceil(dist / max_dist))
    step = dist / num
    for j in range(num): waypoints.append(point0 + (j + 1) * step * vec)
-/
noncomputable def segmentPoints (p0 p1 : ℝ × ℝ) (max_dist : ℝ) : List (ℝ × ℝ) :=
  let dist := segDist p0 p1
  if dist ≤ 1 / 1000 then [p1]
  else
    let num := (⌈dist / max_dist⌉).toNat
    let step := dist / num
    (List.range num).map (fun j : ℕ =>
      (p0.1 + ((j : ℝ) + 1) * step * ((p1.1 - p0.1) / dist),
       p0.2 + ((j : ℝ) + 1) * step * ((p1.2 - p0.2) / dist)))

/-- One way in `split_ways` (src/src/replan.py lines 119-138): the loop
over `enumerate(zip(way.nodes, way.nodes[1:]))`, with
`points[n.id].ravel()[:2]` embedded as the lookup `pts`; the way start
is appended once, before the first segment. -/
noncomputable def splitWay (pts : ℕ → ℝ × ℝ) (nodes : List ℕ) (max_dist : ℝ) :
    List (ℝ × ℝ) :=
  ((nodes.zip nodes.tail).enum).flatMap (fun ip =>
    (if ip.1 = 0 then [pts ip.2.1] else []) ++
      segmentPoints (pts ip.2.1) (pts ip.2.2) max_dist)

/-- src/src/replan.py lines 100-140, `split_ways` over all ways. -/
noncomputable def split_ways (pts : ℕ → ℝ × ℝ) (ways : List (List ℕ)) (max_dist : ℝ) :
    List (ℝ × ℝ) :=
  ways.flatMap (fun w => splitWay pts w max_dist)

/-! ## Theorems -/

/-- C9: a routing request with fewer than 2 points, or without a start
point, or without a goal point, fails with the corresponding
precondition message, and the result does not depend on anything
downstream of the checks (the distance-matrix computation and the
solver, abstracted as `rest`), so no path is returned. -/
theorem solve_path_preconditions (points : List AppPoint)
    (rest rest2 : ℕ → ℕ → Except String (List ℕ × ℤ))
    (h : points.length < 2 ∨ start_points points = [] ∨
      goal_points points = []) :
    solve_path points rest = solve_path points rest2 ∧
    ∃ m, solve_path points rest = .error m ∧
      (m = "Need at least 2 points" ∨
        m = "Need both start and goal points") := by
  by_cases hl : points.length < 2
  · refine ⟨by simp [solve_path, hl], "Need at least 2 points",
      by simp [solve_path, hl], Or.inl rfl⟩
  · rcases h with h | h | h
    · exact absurd h hl
    · refine ⟨by simp [solve_path, hl, h], "Need both start and goal points",
        by simp [solve_path, hl, h], Or.inr rfl⟩
    · rcases hs : start_points points with _ | ⟨s, ss⟩
      · refine ⟨by simp [solve_path, hl, hs], "Need both start and goal points",
          by simp [solve_path, hl, hs], Or.inr rfl⟩
      · refine ⟨by simp [solve_path, hl, hs, h], "Need both start and goal points",
          by simp [solve_path, hl, hs, h], Or.inr rfl⟩

/-- Witness for C9: the empty point set is rejected with the
fewer-than-2-points message under two different downstream
continuations. -/
theorem solve_path_preconditions_witness :
    solve_path [] (fun _ _ => .ok ([], 0)) =
      solve_path [] (fun _ _ => .error "x") ∧
    ∃ m, solve_path [] (fun _ _ => .ok ([], 0)) = .error m ∧
      (m = "Need at least 2 points" ∨
        m = "Need both start and goal points") :=
  solve_path_preconditions [] _ _ (Or.inl (by decide))

/-- C10 counterexample: with exactly the start and the goal at
identical coordinates, `TSPGUI.solve_path` does not return a trivial
single-node path of cost zero; it rejects the request with a warning
and returns nothing. -/
theorem gui2_identical_endpoints_cex :
    gui2_solve_front [⟨5, 5, 0, "start"⟩, ⟨5, 5, 1, "goal"⟩] 2 =
      some "Start and goal cannot be the same without intermediate points." := by
  decide

/-- C10 amended: whenever the point set holds exactly a start and a
goal with identical coordinates, the route operation rejects the
request with the same-point warning and returns no path (the solver is
never reached). -/
theorem gui2_identical_endpoints (x y : ℚ) (i j cc : ℕ) (hcc : 2 ≤ cc) :
    gui2_solve_front [⟨x, y, i, "start"⟩, ⟨x, y, j, "goal"⟩] cc =
      some "Start and goal cannot be the same without intermediate points." := by
  have h2 : ¬ cc < 2 := Nat.not_lt.mpr hcc
  simp [gui2_solve_front, h2, List.find?]

/-- Witness for C10's amended theorem at concrete coordinates. -/
theorem gui2_identical_endpoints_witness :
    gui2_solve_front [⟨7, 3, 0, "start"⟩, ⟨7, 3, 1, "goal"⟩] 2 =
      some "Start and goal cannot be the same without intermediate points." :=
  gui2_identical_endpoints 7 3 0 1 2 (by decide)

/-- C2: the loop of `PathSolver.solve_path` (src/app.py lines 95-107)
adds an arc cost only when the successor is not the end index, so the
final edge into the goal is left out of the reported total: on the
two-point instance with distance 5 between start 0 and goal 1 the code
reports total 0, while the sum of distance-matrix entries over every
consecutive pair of the returned path (the claimed total) is 5. -/
theorem app_total_distance_drops_last_arc :
    extractLoop (fun i j => if i = 0 ∧ j = 1 then 5 else 0)
        (fun _ => 1) (fun n => n == 1) 0 10 = ([0, 1], 0) ∧
    pathCost (fun i j => if i = 0 ∧ j = 1 then 5 else 0) [0, 1] = 5 := by
  constructor <;> decide

/-- C1 counterexample: the post-solution check of `TSPGUI.solve_path`
accepts the path [0, 0, 1] for a 2-point problem — `len(set(path))`
equals the point count — although id 0 appears twice, so a path whose
id-multiset is not the input id set taken exactly once is returned
rather than reported as an integrity failure. -/
theorem gui2_postcheck_cex :
    gui2PostCheck 2 [0, 0, 1] = .ok [0, 0, 1] ∧
    ([0, 0, 1] : List ℕ).count 0 = 2 :=
  ⟨rfl, by decide⟩

/-- The distinct-count check of gui2 characterised: over node ids below
n, `len(set(path)) == n` holds exactly when every id occurs in the path
at least once. -/
theorem dedup_length_eq_iff (n : ℕ) (path : List ℕ)
    (hb : ∀ x ∈ path, x < n) :
    path.dedup.length = n ↔ ∀ i < n, i ∈ path := by
  have hcard : path.toFinset.card = path.dedup.length :=
    List.card_toFinset path
  have hsub : path.toFinset ⊆ Finset.range n := by
    intro a ha
    rw [List.mem_toFinset] at ha
    exact Finset.mem_range.mpr (hb a ha)
  constructor
  · intro h i hi
    have heq : path.toFinset = Finset.range n :=
      Finset.eq_of_subset_of_card_le hsub
        (by rw [Finset.card_range, hcard, h])
    have hmem : i ∈ path.toFinset := heq ▸ Finset.mem_range.mpr hi
    exact List.mem_toFinset.mp hmem
  · intro h
    have hsup : Finset.range n ⊆ path.toFinset := by
      intro a ha
      exact List.mem_toFinset.mpr (h a (Finset.mem_range.mp ha))
    have heq : path.toFinset = Finset.range n :=
      Finset.Subset.antisymm hsub hsup
    rw [← hcard, heq, Finset.card_range]

/-- C1 amended: gui2's postcondition check verifies set coverage, not
exact multiplicity — over ids below n it accepts a path exactly when
every id appears in it at least once; a rejected path produces the
does-not-include-all-points warning (distinct from the no-solution
message) and no path. src/app.py performs no such check at all. -/
theorem gui2_postcheck_coverage (n : ℕ) (path : List ℕ)
    (hb : ∀ x ∈ path, x < n) :
    (gui2PostCheck n path = .ok path ↔ ∀ i < n, i ∈ path) ∧
    (gui2PostCheck n path = .ok path ∨
      gui2PostCheck n path =
        .error "Solution does not include all points. Try adjusting points.") := by
  constructor
  · rw [← dedup_length_eq_iff n path hb]
    unfold gui2PostCheck
    by_cases h : path.dedup.length = n <;> simp [h]
  · unfold gui2PostCheck
    by_cases h : path.dedup.length = n <;> simp [h]

/-- Witness for C1's amended theorem: the accepted two-point path
[0, 1] covers both ids. -/
theorem gui2_postcheck_coverage_witness :
    (gui2PostCheck 2 [0, 1] = .ok [0, 1] ↔ ∀ i < 2, i ∈ [0, 1]) ∧
    (gui2PostCheck 2 [0, 1] = .ok [0, 1] ∨
      gui2PostCheck 2 [0, 1] =
        .error "Solution does not include all points. Try adjusting points.") :=
  gui2_postcheck_coverage 2 [0, 1] (by decide)

/-- C6: in the grid `fill_grid` assembles, any cell whose obstacle flag
is set has cost `⊤` (the np.inf sentinel), whatever the cost shape, the
distance bound, and the nearest-reference distances — the override of
lines 64-65 of src/src/replan.py is unconditional. -/
theorem fill_grid_obstacle_cost (shape : String) (m : ℚ)
    (barriers : List ((ℚ × ℚ) → Bool)) (nearest : (ℚ × ℚ) → ℚ)
    (grid : List (ℚ × ℚ)) (i : ℕ) (h : i < grid.length)
    (hob : barriers.any (fun b => b grid[i]) = true) :
    (fill_grid shape m barriers nearest grid).2[i]? = some ⊤ := by
  unfold fill_grid
  rw [List.getElem?_zipWith']
  simp [List.getElem?_eq_getElem h, hob]

/-- Witness for C6: a single cell covered by an always-true barrier
predicate receives cost `⊤` under the quadratic mode. -/
theorem fill_grid_obstacle_cost_witness :
    (fill_grid "quadratic" 1 [fun _ => true] (fun _ => 0)
      [((0 : ℚ), (0 : ℚ))]).2[0]? = some ⊤ :=
  fill_grid_obstacle_cost "quadratic" 1 [fun _ => true] (fun _ => 0)
    [((0 : ℚ), (0 : ℚ))] 0 (by decide) (by rfl)

/-- C4: evaluating the code at the failing input.  A single
non-obstacle cell whose nearest resampled way point is at distance 1/2
with max_path_dist 1 must, per the specification, receive
(1/2 / 1)² = 1/4; the quadratic branch of the source instead squares
the zero-filled `path_grid` column (itself an out-of-range read) and
divides by max_path_dist², so the cell receives 0. -/
theorem fill_grid_quadratic_bug :
    (fill_grid neighbor_cost 1 [] (fun _ => 1/2) [((0 : ℚ), (0 : ℚ))]).2 =
      [((0 : ℚ) : WithTop ℚ)] ∧
    spec_quadratic_cost 1 (1/2) = 1/4 ∧
    ((0 : ℚ) : WithTop ℚ) ≠ ((1/4 : ℚ) : WithTop ℚ) := by
  refine ⟨?_, by norm_num [spec_quadratic_cost], by simp⟩
  norm_num [fill_grid, cellCost, neighbor_cost]
  decide

/-- C5 counterexample: a non-obstacle cell at nearest distance 5 ≥
max_path_dist 1 ends with cost 0 — the zero initialization of
`path_grid`, not a large finite sentinel — so its cost is not strictly
greater than the shaped proximity cost of an on-path cell (0 in the
hard-wired quadratic mode, 1/2 for the same geometry under the linear
branch). -/
theorem fill_grid_offpath_cex :
    (fill_grid neighbor_cost 1 [] (fun c => c.1)
      [((5 : ℚ), (0 : ℚ)), ((1/2 : ℚ), (0 : ℚ))]).2 =
      [((0 : ℚ) : WithTop ℚ), ((0 : ℚ) : WithTop ℚ)] ∧
    (fill_grid "linear" 1 [] (fun c => c.1)
      [((5 : ℚ), (0 : ℚ)), ((1/2 : ℚ), (0 : ℚ))]).2 =
      [((0 : ℚ) : WithTop ℚ), ((1/2 : ℚ) : WithTop ℚ)] ∧
    ¬ ((0 : ℚ) > (0 : ℚ)) ∧ ¬ ((0 : ℚ) > (1/2 : ℚ)) := by
  refine ⟨?_, ?_, by norm_num, by norm_num⟩
  · norm_num [fill_grid, cellCost, neighbor_cost]
    decide
  · norm_num [fill_grid, cellCost]

/-- C5 amended: a non-obstacle cell whose nearest reference distance
is at least max_path_dist keeps the zero default of the cost grid —
it is traversable (finite, strictly below the obstacle sentinel ⊤) but
carries the minimum cost 0, not a large penalizing sentinel. -/
theorem fill_grid_offpath_default (shape : String) (m : ℚ)
    (barriers : List ((ℚ × ℚ) → Bool)) (nearest : (ℚ × ℚ) → ℚ)
    (grid : List (ℚ × ℚ)) (i : ℕ) (h : i < grid.length)
    (hob : barriers.any (fun b => b grid[i]) = false)
    (hd : m ≤ nearest grid[i]) :
    (fill_grid shape m barriers nearest grid).2[i]? =
      some ((0 : ℚ) : WithTop ℚ) ∧
    ((0 : ℚ) : WithTop ℚ) < ⊤ := by
  refine ⟨?_, WithTop.coe_lt_top 0⟩
  unfold fill_grid
  rw [List.getElem?_zipWith']
  simp [List.getElem?_eq_getElem h, hob, cellCost, not_lt.mpr hd]

/-- Witness for C5's amended theorem: one barrier-free cell at nearest
distance 5 with max_path_dist 1 keeps cost 0. -/
theorem fill_grid_offpath_default_witness :
    (fill_grid neighbor_cost 1 [] (fun c => c.1)
      [((5 : ℚ), (0 : ℚ))]).2[0]? = some ((0 : ℚ) : WithTop ℚ) ∧
    ((0 : ℚ) : WithTop ℚ) < ⊤ :=
  fill_grid_offpath_default neighbor_cost 1 [] (fun c => c.1)
    [((5 : ℚ), (0 : ℚ))] 0 (by decide) (by rfl) (by decide)

/-- C8 counterexample: with the unrecognized cost shape "foo" the
computation is not rejected — the proximity query result is shaped
as-is (the cell still gets its ratio cost 1/2) and a grid is produced;
the only trace is the printed Unknown-neighbor-cost diagnostic. -/
theorem fill_grid_unknown_shape_cex :
    (fill_grid "foo" 1 [] (fun c => c.1) [((1/2 : ℚ), (0 : ℚ))]).2 =
      [((1/2 : ℚ) : WithTop ℚ)] ∧
    (fill_grid "foo" 1 [] (fun c => c.1) [((1/2 : ℚ), (0 : ℚ))]).1 =
      ["Unknown neighbor cost: foo"] := by
  have h1 : ("foo" : String) ≠ "linear" := by decide
  have h2 : ("foo" : String) ≠ "quadratic" := by decide
  have h3 : ("foo" : String) ≠ "zero" := by decide
  exact ⟨by norm_num [fill_grid, cellCost, h1, h2, h3], rfl⟩

/-- C8 amended: an unrecognized cost_shape value only yields a printed
diagnostic; every per-cell computation still runs — each cell below the
distance bound keeps its unshaped ratio (the linear behavior) — and a
grid of the full cell count is produced. -/
theorem fill_grid_unknown_shape (shape : String) (m : ℚ)
    (barriers : List ((ℚ × ℚ) → Bool)) (nearest : (ℚ × ℚ) → ℚ)
    (grid : List (ℚ × ℚ))
    (h1 : shape ≠ "linear") (h2 : shape ≠ "quadratic")
    (h3 : shape ≠ "zero") :
    (fill_grid shape m barriers nearest grid).1 =
      ["Unknown neighbor cost: " ++ shape] ∧
    (fill_grid shape m barriers nearest grid).2.length = grid.length ∧
    (∀ d, cellCost shape m d = if d < m then d / m else 0) := by
  refine ⟨?_, ?_, ?_⟩
  · simp [fill_grid, fillWarnings, h1, h2, h3]
  · simp [fill_grid, List.length_zipWith]
  · intro d
    simp [cellCost, h1, h2, h3]

/-- Witness for C8's amended theorem at the shape "foo". -/
theorem fill_grid_unknown_shape_witness :
    (fill_grid "foo" 1 [] (fun _ => 0) [((0 : ℚ), (0 : ℚ))]).1 =
      ["Unknown neighbor cost: " ++ "foo"] ∧
    (fill_grid "foo" 1 [] (fun _ => 0) [((0 : ℚ), (0 : ℚ))]).2.length =
      [((0 : ℚ), (0 : ℚ))].length ∧
    (∀ d, cellCost "foo" 1 d = if d < 1 then d / 1 else 0) :=
  fill_grid_unknown_shape "foo" 1 [] (fun _ => 0) [((0 : ℚ), (0 : ℚ))]
    (by decide) (by decide) (by decide)

/-- C3 counterexample: for the bounding box (0,0)-(2,2) with cell_size
1, `create_grid` yields the 2×2 lattice [(0,0), (2,0), (0,2), (2,2)]
(with the padded zero column): 4 cells, not 9, and the consecutive
samples along an axis are 2 apart, not cell_size = 1 apart —
`np.linspace` spreads ceil((max-min)/cell_size) samples over the whole
extent instead of stepping by cell_size. -/
theorem create_grid_cex :
    create_grid (0, 0) (2, 2) 1 =
      [(0, 0, 0), (2, 0, 0), (0, 2, 0), (2, 2, 0)] ∧
    (create_grid (0, 0) (2, 2) 1).length = 4 ∧
    ¬ (create_grid (0, 0) (2, 2) 1).length = 9 := by
  have h : gridNum 0 2 1 = 2 := by norm_num [gridNum]; rfl
  have hg : create_grid (0, 0) (2, 2) 1 =
      [(0, 0, 0), (2, 0, 0), (0, 2, 0), (2, 2, 0)] := by
    simp only [create_grid]
    norm_num [h, linspace, List.range_succ]
  exact ⟨hg, by rw [hg]; rfl, by rw [hg]; decide⟩

/-- Helper for C3: `linspace` with at least two samples is the affine map over
`List.range`. -/
theorem linspace_of_two_le (a b : ℚ) (n : ℕ) (h : 2 ≤ n) :
    linspace a b n =
      (List.range n).map (fun i => a + i * (b - a) / ((n : ℚ) - 1)) := by
  unfold linspace
  rw [if_neg (by omega), if_neg (by omega)]

/-- C3 amended: `create_grid` produces the row-major lattice whose
per-axis sample count is ceil((max-min)/cell_size) and whose per-axis
samples are evenly spread over [min, max] with spacing
(max-min)/(count-1) — not cell_size; the total cell count is the
product of the two per-axis counts.  For bbox (0,0)-(2,2) with
cell_size 1 this is a 2×2 lattice. -/
theorem create_grid_structure (low high : ℚ × ℚ) (c : ℚ)
    (hx : 2 ≤ gridNum low.1 high.1 c) (hy : 2 ≤ gridNum low.2 high.2 c) :
    create_grid low high c =
      ((List.range (gridNum low.2 high.2 c)).map (fun i =>
        (List.range (gridNum low.1 high.1 c)).map (fun j =>
          (low.1 + j * (high.1 - low.1) / ((gridNum low.1 high.1 c : ℚ) - 1),
           low.2 + i * (high.2 - low.2) / ((gridNum low.2 high.2 c : ℚ) - 1),
           (0 : ℚ))))).flatten ∧
    (create_grid low high c).length =
      gridNum low.2 high.2 c * gridNum low.1 high.1 c := by
  have hmain : create_grid low high c =
      ((List.range (gridNum low.2 high.2 c)).map (fun i =>
        (List.range (gridNum low.1 high.1 c)).map (fun j =>
          (low.1 + j * (high.1 - low.1) / ((gridNum low.1 high.1 c : ℚ) - 1),
           low.2 + i * (high.2 - low.2) / ((gridNum low.2 high.2 c : ℚ) - 1),
           (0 : ℚ))))).flatten := by
    unfold create_grid
    rw [linspace_of_two_le _ _ _ hx, linspace_of_two_le _ _ _ hy]
    simp [List.map_map, Function.comp_def]
  refine ⟨hmain, ?_⟩
  rw [hmain, List.length_flatten, List.map_map]
  simp [Function.comp_def, List.length_range, Nat.mul_comm]

/-- Witness for C3's amended theorem at bbox (0,0)-(2,2), cell_size 1:
both per-axis counts are 2 and the lattice is the 2×2 grid. -/
theorem create_grid_structure_witness :
    create_grid (0, 0) (2, 2) 1 =
      ((List.range (gridNum (0, 0).2 (2, 2).2 1)).map (fun i =>
        (List.range (gridNum (0, 0).1 (2, 2).1 1)).map (fun j =>
          ((0, 0).1 + j * ((2, 2).1 - (0, 0).1) /
            ((gridNum (0, 0).1 (2, 2).1 1 : ℚ) - 1),
           (0, 0).2 + i * ((2, 2).2 - (0, 0).2) /
            ((gridNum (0, 0).2 (2, 2).2 1 : ℚ) - 1),
           (0 : ℚ))))).flatten ∧
    (create_grid (0, 0) (2, 2) 1).length =
      gridNum (0, 0).2 (2, 2).2 1 * gridNum (0, 0).1 (2, 2).1 1 :=
  create_grid_structure (0, 0) (2, 2) 1
    (by norm_num [gridNum]) (by norm_num [gridNum])

/-- Helper for C7: the point count a long-enough segment contributes
is exactly the ceiling of length over step. -/
theorem segmentPoints_len (p0 p1 : ℝ × ℝ) (m : ℝ)
    (hL : 1 / 1000 < segDist p0 p1) :
    (segmentPoints p0 p1 m).length = (⌈segDist p0 p1 / m⌉).toNat := by
  unfold segmentPoints
  rw [if_neg (not_le.mpr hL)]
  rw [List.length_map, List.length_range]

/-- Helper for C7: the emitted points simplify to the even subdivision
of the segment — point j sits at fraction (j+1)/num of the way from
p0 to p1 (the source's `(j+1) * (dist/num) * ((p1-p0)/dist)` with the
length cancelled). -/
theorem segmentPoints_get (p0 p1 : ℝ × ℝ) (m : ℝ) (hm : 0 < m)
    (hL : 1 / 1000 < segDist p0 p1) (j : ℕ)
    (hj : j < (⌈segDist p0 p1 / m⌉).toNat) :
    (segmentPoints p0 p1 m)[j]? =
      some (p0.1 + ((j : ℝ) + 1) * ((p1.1 - p0.1) / (⌈segDist p0 p1 / m⌉).toNat),
            p0.2 + ((j : ℝ) + 1) * ((p1.2 - p0.2) / (⌈segDist p0 p1 / m⌉).toNat)) := by
  have hd0 : (0 : ℝ) < segDist p0 p1 := lt_trans (by norm_num) hL
  have hnz : segDist p0 p1 ≠ 0 := ne_of_gt hd0
  have hnum : 1 ≤ (⌈segDist p0 p1 / m⌉).toNat := by
    have : (0 : ℤ) < ⌈segDist p0 p1 / m⌉ := Int.ceil_pos.mpr (div_pos hd0 hm)
    omega
  have hnnz : ((⌈segDist p0 p1 / m⌉).toNat : ℝ) ≠ 0 :=
    Nat.cast_ne_zero.mpr (by omega)
  unfold segmentPoints
  rw [if_neg (not_le.mpr hL)]
  rw [List.getElem?_map, List.getElem?_range hj, Option.map_some']
  congr 2
  · field_simp
    ring
  · field_simp
    ring

/-- Helper for C7: the last emitted point of a long-enough segment is
exactly the segment's endpoint. -/
theorem segmentPoints_last (p0 p1 : ℝ × ℝ) (m : ℝ) (hm : 0 < m)
    (hL : 1 / 1000 < segDist p0 p1) :
    (segmentPoints p0 p1 m).getLast? = some p1 := by
  have hd0 : (0 : ℝ) < segDist p0 p1 := lt_trans (by norm_num) hL
  have hnum : 1 ≤ (⌈segDist p0 p1 / m⌉).toNat := by
    have : (0 : ℤ) < ⌈segDist p0 p1 / m⌉ := Int.ceil_pos.mpr (div_pos hd0 hm)
    omega
  have hnnz : ((⌈segDist p0 p1 / m⌉).toNat : ℝ) ≠ 0 :=
    Nat.cast_ne_zero.mpr (by omega)
  have hlen := segmentPoints_len p0 p1 m hL
  have hj : (⌈segDist p0 p1 / m⌉).toNat - 1 < (⌈segDist p0 p1 / m⌉).toNat := by
    omega
  have hget := segmentPoints_get p0 p1 m hm hL _ hj
  rw [List.getLast?_eq_getElem?, hlen, hget]
  have hcast : (((⌈segDist p0 p1 / m⌉).toNat - 1 : ℕ) : ℝ) + 1 =
      ((⌈segDist p0 p1 / m⌉).toNat : ℝ) := by
    push_cast [Nat.cast_sub hnum]
    ring
  rw [hcast]
  congr 1
  have h1 : p0.1 + ((⌈segDist p0 p1 / m⌉).toNat : ℝ) *
      ((p1.1 - p0.1) / ((⌈segDist p0 p1 / m⌉).toNat : ℝ)) = p1.1 := by
    field_simp
  have h2 : p0.2 + ((⌈segDist p0 p1 / m⌉).toNat : ℝ) *
      ((p1.2 - p0.2) / ((⌈segDist p0 p1 / m⌉).toNat : ℝ)) = p1.2 := by
    field_simp
  rw [h1, h2]

/-- C7: way resampling.  For a segment longer than the 1e-3 threshold,
`split_ways` emits exactly ceil(L / max_way_step) points, the j-th at
fraction (j+1)/num along the segment (hence evenly spaced), the last
one the segment's endpoint; a segment of length at most 1e-3 emits only
its endpoint; and on the first segment of a way the segment's own start
point is emitted in front. -/
theorem split_ways_resampling (p0 p1 : ℝ × ℝ) (m : ℝ) (hm : 0 < m)
    (hL : 1 / 1000 < segDist p0 p1) :
    (segmentPoints p0 p1 m).length = (⌈segDist p0 p1 / m⌉).toNat ∧
    (∀ j : ℕ, j < (⌈segDist p0 p1 / m⌉).toNat →
      (segmentPoints p0 p1 m)[j]? =
        some (p0.1 + ((j : ℝ) + 1) *
                ((p1.1 - p0.1) / (⌈segDist p0 p1 / m⌉).toNat),
              p0.2 + ((j : ℝ) + 1) *
                ((p1.2 - p0.2) / (⌈segDist p0 p1 / m⌉).toNat))) ∧
    (segmentPoints p0 p1 m).getLast? = some p1 ∧
    (∀ q0 q1 : ℝ × ℝ, segDist q0 q1 ≤ 1 / 1000 →
      segmentPoints q0 q1 m = [q1]) ∧
    (∀ (pts : ℕ → ℝ × ℝ) (n0 n1 : ℕ),
      splitWay pts [n0, n1] m =
        pts n0 :: segmentPoints (pts n0) (pts n1) m) := by
  refine ⟨segmentPoints_len p0 p1 m hL,
    fun j hj => segmentPoints_get p0 p1 m hm hL j hj,
    segmentPoints_last p0 p1 m hm hL, ?_, ?_⟩
  · intro q0 q1 hq
    unfold segmentPoints
    rw [if_pos hq]
  · intro pts n0 n1
    simp [splitWay]

/-- Witness for C7, scenario B: the single way (0,0) → (1,0) with
max_way_step 0.5 resamples to exactly (0,0), (0.5,0), (1,0), and the
theorem applies at that segment. -/
theorem split_ways_resampling_witness :
    (0 < (1/2 : ℝ)) ∧
    (1 / 1000 < segDist ((0 : ℝ), (0 : ℝ)) ((1 : ℝ), (0 : ℝ))) ∧
    (segmentPoints ((0 : ℝ), (0 : ℝ)) ((1 : ℝ), (0 : ℝ)) (1/2)).getLast? =
      some ((1 : ℝ), (0 : ℝ)) ∧
    split_ways
      (fun n => if n = 0 then ((0 : ℝ), (0 : ℝ)) else ((1 : ℝ), (0 : ℝ)))
      [[0, 1]] (1/2) = [(0, 0), (1/2, 0), (1, 0)] := by
  have hm : (0 : ℝ) < 1/2 := by norm_num
  have hL : 1 / 1000 < segDist ((0 : ℝ), (0 : ℝ)) ((1 : ℝ), (0 : ℝ)) := by
    norm_num [segDist]
  refine ⟨hm, hL,
    (split_ways_resampling ((0 : ℝ), (0 : ℝ)) ((1 : ℝ), (0 : ℝ)) (1/2)
      hm hL).2.2.1, ?_⟩
  have hsd : segDist (0 : ℝ × ℝ) ((1 : ℝ), (0 : ℝ)) = 1 := by
    norm_num [segDist]
  have hc : (⌈(1 : ℝ) / (1/2)⌉).toNat = 2 := by norm_num; rfl
  have ht : Int.toNat 2 = 2 := rfl
  simp only [split_ways, splitWay, List.zip, List.tail, segmentPoints]
  norm_num [hsd, hc, ht, List.range_succ]

end Planner
